import Mathlib

set_option autoImplicit false

/-
  Shallow embedding of the asynchronous task-tracking and
  incremental-response-delivery subsystem of `backend_api.py`.

  Python dictionaries keyed by id are modelled as association lists;
  timestamps (`time.time()`) are modelled as abstract `Nat` clock values
  supplied by the caller; the remote model gateway is modelled as an
  `Except`-valued parameter (error = transport/API failure); the streaming
  gateway yields a list of fragments (`delta.content`, which may be `None`
  or empty, hence `Option String`).
-/

namespace BackendApi

/-- Association-list lookup, modelling Python `dict` read (`d.get(k)` / `k in d`). -/
def findIn {κ α : Type} [DecidableEq κ] : List (κ × α) → κ → Option α
  | [], _ => none
  | (k, v) :: rest, key => if k = key then some v else findIn rest key

/-- Association-list write, modelling Python `d[k] = v` (replace in place or append). -/
def setIn {κ α : Type} [DecidableEq κ] : List (κ × α) → κ → α → List (κ × α)
  | [], key, v => [(key, v)]
  | (k, w) :: rest, key, v =>
      if k = key then (k, v) :: rest else (k, w) :: setIn rest key v

/-- The `TaskStatus` enum from the source. -/
inductive TaskStatus where
  | pending
  | processing
  | completed
  | failed
  deriving DecidableEq, Repr

/-- The dictionary returned by `analyze_file_content_async` on success. -/
structure AnalyzeResult where
  conversation_id : String
  ai_response : String
  deriving DecidableEq, Repr

/-- A job record as stored in `TaskManager.tasks`.  The `**kwargs` metadata
(filename, conversation id, file size) is modelled as an opaque
string-to-string association list. -/
structure Task where
  id : String
  task_type : String
  status : TaskStatus
  progress : Nat
  result : Option AnalyzeResult
  error : Option String
  created_at : Nat
  updated_at : Nat
  metadata : List (String × String)
  deriving DecidableEq, Repr

abbrev TaskMap := List (String × Task)

/-- A partial update, modelling the `**updates` keyword arguments of
`TaskManager.update_task`; `none` means the field was not passed. -/
structure TaskUpdate where
  status : Option TaskStatus
  progress : Option Nat
  result : Option AnalyzeResult
  error : Option String
  deriving DecidableEq, Repr

/-- Effect of `self.tasks[task_id].update(updates)` followed by
`self.tasks[task_id]['updated_at'] = time.time()`. -/
def applyUpdate (t : Task) (u : TaskUpdate) (now : Nat) : Task :=
  { t with
    status := u.status.getD t.status
    progress := u.progress.getD t.progress
    result := match u.result with | some r => some r | none => t.result
    error := match u.error with | some e => some e | none => t.error
    updated_at := now }

/-- The fresh record built by `TaskManager.create_task`. -/
def newTask (task_id task_type : String) (meta : List (String × String)) (now : Nat) : Task :=
  { id := task_id
    task_type := task_type
    status := TaskStatus.pending
    progress := 0
    result := none
    error := none
    created_at := now
    updated_at := now
    metadata := meta }

/-- `TaskManager.create_task`: unconditionally assigns a fresh Pending record
under `task_id` (`self.tasks[task_id] = {...}`; there is no duplicate check). -/
def create_task (m : TaskMap) (task_id task_type : String)
    (meta : List (String × String)) (now : Nat) : TaskMap :=
  setIn m task_id (newTask task_id task_type meta now)

/-- `TaskManager.update_task`: merge a partial update if the id is present,
refreshing `updated_at`; silently a no-op if the id is absent. -/
def update_task (m : TaskMap) (task_id : String) (u : TaskUpdate) (now : Nat) : TaskMap :=
  match findIn m task_id with
  | some t => setIn m task_id (applyUpdate t u now)
  | none => m

/-- A turn of a conversation (a `{'role': ..., 'content': ...}` dict). -/
structure Turn where
  role : String
  content : String
  deriving DecidableEq, Repr

abbrev Conversations := List (String × List Turn)

/-- In-memory conversation map together with the durable `conversations.json`
contents (`saved`), so write-through persistence is observable. -/
structure TutorState where
  conversations : Conversations
  saved : Conversations
  deriving DecidableEq, Repr

/-- `save_conversations`: rewrite the durable file from the in-memory map. -/
def save_conversations (st : TutorState) : TutorState :=
  { st with saved := st.conversations }

/-- `create_conversation` (the fresh uuid is a parameter): insert an empty
turn list and persist. -/
def create_conversation (st : TutorState) (cid : String) : TutorState :=
  save_conversations { st with conversations := setIn st.conversations cid [] }

/-- A streaming fragment sequence from the model gateway: each chunk's
`delta.content`, which may be `None`. -/
abbrev Fragments := List (Option String)

/-- `start_conversation`: create the conversation if absent, append the user
turn (with no call to `save_conversations`), then call the model; a gateway
failure is returned as the string `"调用模型失败: ..."`. -/
def start_conversation (st : TutorState) (cid user_input : String)
    (g : Except String Fragments) : TutorState × Except String Fragments :=
  let convs0 :=
    match findIn st.conversations cid with
    | some _ => st.conversations
    | none => setIn st.conversations cid []
  let history := (findIn convs0 cid).getD []
  let st1 := { st with conversations := setIn convs0 cid (history ++ [⟨"user", user_input⟩]) }
  match g with
  | Except.ok fr => (st1, Except.ok fr)
  | Except.error e => (st1, Except.error ("调用模型失败: " ++ e))

/-- `add_assistant_message`: append an assistant turn and persist, but only
when the conversation exists. -/
def add_assistant_message (st : TutorState) (cid content : String) : TutorState :=
  match findIn st.conversations cid with
  | some turns =>
      save_conversations
        { st with conversations := setIn st.conversations cid (turns ++ [⟨"assistant", content⟩]) }
  | none => st

/-- One server-sent event of a streaming endpoint. -/
inductive Chunk where
  | content (text : String)
  | error (message : String)
  | done
  deriving DecidableEq, Repr

/-- The fragments that pass the truthiness test
`if chunk.choices[0].delta.content:` (neither `None` nor empty). -/
def nonEmptyFragments (fr : Fragments) : List String :=
  fr.filterMap fun c =>
    match c with
    | some s => if s = "" then none else some s
    | none => none

/-- The texts of the `content` chunks of a stream, in order. -/
def contentTexts (cs : List Chunk) : List String :=
  cs.filterMap fun c =>
    match c with
    | Chunk.content s => some s
    | _ => none

/-- The generator of `POST /api/chat`: run `start_conversation`; on a gateway
error emit one `error` chunk and stop; otherwise relay every truthy fragment
as a `content` chunk, append the accumulated reply as an assistant turn,
persist, and emit `done`. -/
def chat_generate (st : TutorState) (cid msg : String)
    (g : Except String Fragments) : TutorState × List Chunk :=
  match start_conversation st cid msg g with
  | (st1, Except.error emsg) => (st1, [Chunk.error emsg])
  | (st1, Except.ok frags) =>
      let contents := nonEmptyFragments frags
      let full_response := String.join contents
      let history := (findIn st1.conversations cid).getD []
      let st2 := { st1 with
        conversations := setIn st1.conversations cid (history ++ [⟨"assistant", full_response⟩]) }
      let st3 := save_conversations st2
      (st3, contents.map Chunk.content ++ [Chunk.done])

/-- The HTTP outcome of `POST /api/chat`: a 400 response or an event stream.
The handler has no 404 path. -/
inductive ChatResponse where
  | badRequest (message : String)
  | eventStream (st : TutorState) (chunks : List Chunk)
  deriving DecidableEq, Repr

/-- The `/api/chat` handler: `if not conversation_id or not user_message`
yields 400, otherwise the streaming generator runs. -/
def chat (st : TutorState) (conversation_id message : Option String)
    (g : Except String Fragments) : ChatResponse :=
  match conversation_id, message with
  | some cid, some msg =>
      if cid = "" ∨ msg = "" then ChatResponse.badRequest "缺少必要参数"
      else
        let out := chat_generate st cid msg g
        ChatResponse.eventStream out.1 out.2
  | _, _ => ChatResponse.badRequest "缺少必要参数"

/-- Scan the turns in reverse for the most recent assistant turn
(`for msg in reversed(messages): if msg['role'] == 'assistant'`). -/
def lastAssistantMessage (msgs : List Turn) : Option Turn :=
  msgs.reverse.find? fun m => m.role = "assistant"

/-- The slices `content[i:i+50]` for `i in range(0, len(content), 50)`. -/
def sliceChunks (content : List Char) : List (List Char) :=
  if content = [] then []
  else content.take 50 :: sliceChunks (content.drop 50)
termination_by content.length
decreasing_by
  simp only [List.length_drop]
  cases content with
  | nil => simp_all
  | cons c rest => simp; omega

/-- The generator of `GET /api/analyze-stream/<conversation_id>`: error chunks
for an absent conversation, an empty transcript, or a transcript with no
assistant turn; otherwise the 50-character slices of the most recent
assistant turn's text, then `done`. -/
def stream_analysis_generate (st : TutorState) (conversation_id : String) : List Chunk :=
  match findIn st.conversations conversation_id with
  | none => [Chunk.error "对话不存在"]
  | some messages =>
      if messages = [] then [Chunk.error "暂无分析结果"]
      else
        match lastAssistantMessage messages with
        | none => [Chunk.error "暂无AI回复"]
        | some msg =>
            (sliceChunks msg.content.toList).map (fun c => Chunk.content (String.mk c))
              ++ [Chunk.done]

/-- The `content_preview` field of the `/api/upload` response:
`file_content[:500] + '...' if len(file_content) > 500 else file_content`,
on the character sequence of the extracted text. -/
def content_preview (file_content : List Char) : List Char :=
  if 500 < file_content.length then file_content.take 500 ++ ['.', '.', '.']
  else file_content

/-- The process state touched by a background analysis job: the global task
map and the tutor's conversation state. -/
structure SysState where
  tasks : TaskMap
  tutor : TutorState
  deriving DecidableEq, Repr

/-- `analyze_file_content_async`: report progress 30/50/70(/90) through
`update_task`, append the user turn directly to
`tutor.conversations[conversation_id]` (a raw dict access: absence raises
`KeyError`, here an `Except.error`; note there is no `save_conversations`
call on this append), call the model in blocking mode (`g`), and on success
store the assistant reply via `add_assistant_message`.  Exceptions propagate
to the caller as `Except.error`. -/
def analyze_file_content_async (task_id conversation_id : String)
    (file_content : String) (g : Except String String) (clock : Nat → Nat)
    (s : SysState) : SysState × Except String AnalyzeResult :=
  let s1 := { s with
    tasks := update_task s.tasks task_id ⟨some TaskStatus.processing, some 30, none, none⟩ (clock 0) }
  match findIn s1.tutor.conversations conversation_id with
  | none => (s1, Except.error ("KeyError: " ++ conversation_id))
  | some turns =>
      let s2 := { s1 with
        tutor := { s1.tutor with
          conversations := setIn s1.tutor.conversations conversation_id
            (turns ++ [Turn.mk "user" ("请分析以下教材内容:\n\n" ++ file_content)]) } }
      let s3 := { s2 with
        tasks := update_task s2.tasks task_id ⟨none, some 50, none, none⟩ (clock 1) }
      let s4 := { s3 with
        tasks := update_task s3.tasks task_id ⟨none, some 70, none, none⟩ (clock 2) }
      match g with
      | Except.error e => (s4, Except.error e)
      | Except.ok ai_response =>
          let s5 := { s4 with
            tasks := update_task s4.tasks task_id ⟨none, some 90, none, none⟩ (clock 3) }
          let s6 := { s5 with tutor := add_assistant_message s5.tutor conversation_id ai_response }
          (s6, Except.ok ⟨conversation_id, ai_response⟩)

/-- The `task_wrapper` closure inside `TaskManager.submit_task`: mark the job
Processing at 10%, run the work body, and record Completed/100/result on a
normal return or Failed/0/error when the body raises.  The exception is
caught here, recorded, and re-raised into the future (the returned
`Except`); it never escapes to kill the worker pool. -/
def task_wrapper (task_id : String)
    (func : SysState → SysState × Except String AnalyzeResult)
    (clockStart clockEnd : Nat) (s : SysState) : SysState × Except String AnalyzeResult :=
  let s1 := { s with
    tasks := update_task s.tasks task_id ⟨some TaskStatus.processing, some 10, none, none⟩ clockStart }
  match func s1 with
  | (s2, Except.ok v) =>
      ({ s2 with
          tasks := update_task s2.tasks task_id
            ⟨some TaskStatus.completed, some 100, some v, none⟩ clockEnd },
        Except.ok v)
  | (s2, Except.error e) =>
      ({ s2 with
          tasks := update_task s2.tasks task_id
            ⟨some TaskStatus.failed, some 0, none, some e⟩ clockEnd },
        Except.error e)

/-- The successive values of the shared task map while
`task_wrapper (analyze_file_content_async ...)` runs for one file-analysis
job: one snapshot per `update_task` call, in program order, for each of the
three possible executions (missing conversation, gateway failure, success). -/
def analyzeTaskTrace (task_id conversation_id : String) (_file_content : String)
    (g : Except String String) (clockStart clockEnd : Nat) (clock : Nat → Nat)
    (s : SysState) : List TaskMap :=
  let m0 := s.tasks
  let m1 := update_task m0 task_id ⟨some TaskStatus.processing, some 10, none, none⟩ clockStart
  let m2 := update_task m1 task_id ⟨some TaskStatus.processing, some 30, none, none⟩ (clock 0)
  match findIn s.tutor.conversations conversation_id with
  | none =>
      [m0, m1, m2,
        update_task m2 task_id
          ⟨some TaskStatus.failed, some 0, none, some ("KeyError: " ++ conversation_id)⟩ clockEnd]
  | some _ =>
      let m3 := update_task m2 task_id ⟨none, some 50, none, none⟩ (clock 1)
      let m4 := update_task m3 task_id ⟨none, some 70, none, none⟩ (clock 2)
      match g with
      | Except.error e =>
          [m0, m1, m2, m3, m4,
            update_task m4 task_id ⟨some TaskStatus.failed, some 0, none, some e⟩ clockEnd]
      | Except.ok ai_response =>
          let m5 := update_task m4 task_id ⟨none, some 90, none, none⟩ (clock 3)
          [m0, m1, m2, m3, m4, m5,
            update_task m5 task_id
              ⟨some TaskStatus.completed, some 100,
                some (AnalyzeResult.mk conversation_id ai_response), none⟩
              clockEnd]

/-- The status transitions the spec allows: Pending may stay or move to
Processing (Running), Processing may stay or move to a terminal state, and a
terminal state never changes. -/
def statusStepOk : TaskStatus → TaskStatus → Bool
  | TaskStatus.pending, TaskStatus.pending => true
  | TaskStatus.pending, TaskStatus.processing => true
  | TaskStatus.processing, TaskStatus.processing => true
  | TaskStatus.processing, TaskStatus.completed => true
  | TaskStatus.processing, TaskStatus.failed => true
  | TaskStatus.completed, TaskStatus.completed => true
  | TaskStatus.failed, TaskStatus.failed => true
  | _, _ => false

/-- One admissible step of a job record: an allowed status transition,
progress non-decreasing while the job stays Running, and progress within
0-100 whenever the job is Running. -/
def jobStep (a b : Task) : Prop :=
  statusStepOk a.status b.status = true ∧
  (a.status = TaskStatus.processing → b.status = TaskStatus.processing →
    a.progress ≤ b.progress) ∧
  (b.status = TaskStatus.processing → b.progress ≤ 100)

/-- Reference-semantics model of `TaskManager` for aliasing questions:
`tasks` maps ids to heap addresses of mutable record objects, as Python dict
values are object references. -/
structure TaskHeap where
  heap : List (Nat × Task)
  addr : List (String × Nat)
  next : Nat
  deriving DecidableEq, Repr

/-- `create_task` under reference semantics: `self.tasks[task_id] = {...}`
allocates a new record object and binds the id to it. -/
def create_task_ref (h : TaskHeap) (task_id task_type : String)
    (meta : List (String × String)) (now : Nat) : TaskHeap :=
  { heap := setIn h.heap h.next (newTask task_id task_type meta now)
    addr := setIn h.addr task_id h.next
    next := h.next + 1 }

/-- `get_task` (`return self.tasks.get(task_id, None)`): returns the stored
object reference itself, not a copy. -/
def get_task (h : TaskHeap) (task_id : String) : Option Nat :=
  findIn h.addr task_id

/-- Read the record object at an address. -/
def deref (h : TaskHeap) (a : Nat) : Option Task :=
  findIn h.heap a

/-- `update_task` under reference semantics: mutate the record object in
place (`self.tasks[task_id].update(updates)`), leaving its address intact. -/
def update_task_ref (h : TaskHeap) (task_id : String) (u : TaskUpdate)
    (now : Nat) : TaskHeap :=
  match findIn h.addr task_id with
  | none => h
  | some a =>
      match findIn h.heap a with
      | none => h
      | some t => { h with heap := setIn h.heap a (applyUpdate t u now) }

/-! Basic lemmas about the association-list operations and `update_task`. -/

@[simp]
theorem findIn_setIn_self {κ α : Type} [DecidableEq κ]
    (m : List (κ × α)) (k : κ) (v : α) : findIn (setIn m k v) k = some v := by
  induction m with
  | nil => simp [findIn, setIn]
  | cons p rest ih =>
      by_cases h : p.1 = k
      · simp [setIn, findIn, h]
      · simp [setIn, findIn, h, ih]

theorem find_update_task (m : TaskMap) (id : String) (u : TaskUpdate) (now : Nat) :
    findIn (update_task m id u now) id = (findIn m id).map fun t => applyUpdate t u now := by
  unfold update_task
  cases h : findIn m id <;> simp [h]

@[simp]
theorem applyUpdate_status_some (t : Task) (st : TaskStatus) (p : Option Nat)
    (r : Option AnalyzeResult) (e : Option String) (n : Nat) :
    (applyUpdate t ⟨some st, p, r, e⟩ n).status = st := by
  simp [applyUpdate]

@[simp]
theorem applyUpdate_status_none (t : Task) (p : Option Nat)
    (r : Option AnalyzeResult) (e : Option String) (n : Nat) :
    (applyUpdate t ⟨none, p, r, e⟩ n).status = t.status := by
  simp [applyUpdate]

@[simp]
theorem applyUpdate_progress_some (t : Task) (st : Option TaskStatus) (p : Nat)
    (r : Option AnalyzeResult) (e : Option String) (n : Nat) :
    (applyUpdate t ⟨st, some p, r, e⟩ n).progress = p := by
  simp [applyUpdate]

@[simp]
theorem applyUpdate_progress_none (t : Task) (st : Option TaskStatus)
    (r : Option AnalyzeResult) (e : Option String) (n : Nat) :
    (applyUpdate t ⟨st, none, r, e⟩ n).progress = t.progress := by
  simp [applyUpdate]

/-- The recorded trace is faithful to the composed execution: it starts at the
initial task map and its last snapshot is the task map produced by running
`task_wrapper` on `analyze_file_content_async`, in every branch. -/
theorem analyzeTaskTrace_spec (task_id conversation_id file_content : String)
    (g : Except String String) (clockStart clockEnd : Nat) (clock : Nat → Nat)
    (s : SysState) :
    (analyzeTaskTrace task_id conversation_id file_content g clockStart clockEnd clock s).head?
        = some s.tasks ∧
    (analyzeTaskTrace task_id conversation_id file_content g clockStart clockEnd clock s).getLast?
        = some (task_wrapper task_id
            (analyze_file_content_async task_id conversation_id file_content g clock)
            clockStart clockEnd s).1.tasks := by
  cases hconv : findIn s.tutor.conversations conversation_id with
  | none =>
      simp [analyzeTaskTrace, task_wrapper, analyze_file_content_async, hconv]
  | some turns =>
      cases g with
      | error e =>
          simp [analyzeTaskTrace, task_wrapper, analyze_file_content_async, hconv]
      | ok r =>
          simp [analyzeTaskTrace, task_wrapper, analyze_file_content_async, hconv,
            add_assistant_message, save_conversations]

/-- C1: along every execution of a file-analysis job (missing conversation,
gateway failure, or success), every snapshot of the shared task map still
holds the job, and consecutive snapshots only ever step the job
Pending→Running→{Completed|Failed} with no step out of a terminal state,
while Running progress stays within 0–100 and never decreases. -/
theorem analyze_job_lifecycle
    (task_id conversation_id file_content : String) (g : Except String String)
    (clockStart clockEnd : Nat) (clock : Nat → Nat) (s : SysState) (t0 : Task)
    (h0 : findIn s.tasks task_id = some t0)
    (hs : t0.status = TaskStatus.pending) (hp : t0.progress = 0) :
    (∀ m ∈ analyzeTaskTrace task_id conversation_id file_content g clockStart clockEnd clock s,
        (findIn m task_id).isSome = true) ∧
    List.Chain'
      (fun mA mB => ∀ a b, findIn mA task_id = some a → findIn mB task_id = some b → jobStep a b)
      (analyzeTaskTrace task_id conversation_id file_content g clockStart clockEnd clock s) := by
  cases hconv : findIn s.tutor.conversations conversation_id with
  | none =>
      simp only [analyzeTaskTrace, hconv]
      constructor
      · intro m hm
        simp only [List.mem_cons, List.not_mem_nil, or_false] at hm
        rcases hm with rfl | rfl | rfl | rfl <;> simp [find_update_task, h0]
      · simp only [List.chain'_cons, List.chain'_singleton, and_true]
        refine ⟨?_, ?_, ?_⟩ <;>
          (intro a b ha hb
           simp only [find_update_task, h0, Option.map_some', Option.some.injEq] at ha hb
           subst ha; subst hb
           simp [jobStep, statusStepOk, hs, hp])
  | some turns =>
      cases g with
      | error e =>
          simp only [analyzeTaskTrace, hconv]
          constructor
          · intro m hm
            simp only [List.mem_cons, List.not_mem_nil, or_false] at hm
            rcases hm with rfl | rfl | rfl | rfl | rfl | rfl <;> simp [find_update_task, h0]
          · simp only [List.chain'_cons, List.chain'_singleton, and_true]
            refine ⟨?_, ?_, ?_, ?_, ?_⟩ <;>
              (intro a b ha hb
               simp only [find_update_task, h0, Option.map_some', Option.some.injEq] at ha hb
               subst ha; subst hb
               simp [jobStep, statusStepOk, hs, hp])
      | ok r =>
          simp only [analyzeTaskTrace, hconv]
          constructor
          · intro m hm
            simp only [List.mem_cons, List.not_mem_nil, or_false] at hm
            rcases hm with rfl | rfl | rfl | rfl | rfl | rfl | rfl <;>
              simp [find_update_task, h0]
          · simp only [List.chain'_cons, List.chain'_singleton, and_true]
            refine ⟨?_, ?_, ?_, ?_, ?_, ?_⟩ <;>
              (intro a b ha hb
               simp only [find_update_task, h0, Option.map_some', Option.some.injEq] at ha hb
               subst ha; subst hb
               simp [jobStep, statusStepOk, hs, hp])

/-- Witness for C1 at a concrete successful run. -/
theorem analyze_job_lifecycle_witness :
    (∀ m ∈ analyzeTaskTrace "t" "c" "hello" (Except.ok "reply") 1 9 (fun n => 2 + n)
        ⟨create_task [] "t" "file_analysis" [] 0, ⟨[("c", [])], [("c", [])]⟩⟩,
        (findIn m "t").isSome = true) ∧
    List.Chain'
      (fun mA mB => ∀ a b, findIn mA "t" = some a → findIn mB "t" = some b → jobStep a b)
      (analyzeTaskTrace "t" "c" "hello" (Except.ok "reply") 1 9 (fun n => 2 + n)
        ⟨create_task [] "t" "file_analysis" [] 0, ⟨[("c", [])], [("c", [])]⟩⟩) :=
  analyze_job_lifecycle "t" "c" "hello" (Except.ok "reply") 1 9 (fun n => 2 + n)
    ⟨create_task [] "t" "file_analysis" [] 0, ⟨[("c", [])], [("c", [])]⟩⟩
    (newTask "t" "file_analysis" [] 0) (by decide) (by decide) (by decide)

/-- C2: for a job run through `submit_task`'s `task_wrapper`, if the work body
returns `v` the final record is Completed with progress 100, `result = v` and
`error` unset; if it raises `e` the final record is Failed with progress 0,
`error = str(e)` and `result` unset — so exactly one of result/error is set
once the job leaves Running, and the exception is contained in the wrapper's
returned value (the future) instead of escaping the pool. -/
theorem task_wrapper_final_record
    (task_id : String) (func : SysState → SysState × Except String AnalyzeResult)
    (clockStart clockEnd : Nat) (s s2 : SysState)
    (r : Except String AnalyzeResult) (t : Task)
    (hrun : func { s with tasks := (update_task s.tasks task_id
        ⟨some TaskStatus.processing, some 10, none, none⟩ clockStart) } = (s2, r))
    (hmid : findIn s2.tasks task_id = some t) :
    (∀ v, r = Except.ok v → t.error = none →
      (task_wrapper task_id func clockStart clockEnd s).2 = Except.ok v ∧
      ∃ tf, findIn (task_wrapper task_id func clockStart clockEnd s).1.tasks task_id = some tf ∧
        tf.status = TaskStatus.completed ∧ tf.progress = 100 ∧ tf.result = some v ∧
        tf.error = none ∧ tf.updated_at = clockEnd) ∧
    (∀ e, r = Except.error e → t.result = none →
      (task_wrapper task_id func clockStart clockEnd s).2 = Except.error e ∧
      ∃ tf, findIn (task_wrapper task_id func clockStart clockEnd s).1.tasks task_id = some tf ∧
        tf.status = TaskStatus.failed ∧ tf.progress = 0 ∧ tf.error = some e ∧
        tf.result = none ∧ tf.updated_at = clockEnd) := by
  constructor
  · intro v hv herr
    subst hv
    simp only [task_wrapper]
    rw [hrun]
    refine ⟨rfl, applyUpdate t ⟨some TaskStatus.completed, some 100, some v, none⟩ clockEnd,
      ?_, ?_, ?_, ?_, ?_, ?_⟩
    · simp [find_update_task, hmid]
    · simp
    · simp
    · simp [applyUpdate]
    · simp [applyUpdate, herr]
    · simp [applyUpdate]
  · intro e he hres
    subst he
    simp only [task_wrapper]
    rw [hrun]
    refine ⟨rfl, applyUpdate t ⟨some TaskStatus.failed, some 0, none, some e⟩ clockEnd,
      ?_, ?_, ?_, ?_, ?_, ?_⟩
    · simp [find_update_task, hmid]
    · simp
    · simp
    · simp [applyUpdate]
    · simp [applyUpdate, hres]
    · simp [applyUpdate]

/-- Witness for C2: a concrete successful analysis run through the wrapper. -/
theorem task_wrapper_final_record_witness :
    (∀ v, (Except.ok (AnalyzeResult.mk "c" "reply") : Except String AnalyzeResult)
        = Except.ok v →
      (applyUpdate
        (applyUpdate
          (applyUpdate
            (applyUpdate
              (applyUpdate (newTask "t" "file_analysis" [] 0)
                ⟨some TaskStatus.processing, some 10, none, none⟩ 1)
              ⟨some TaskStatus.processing, some 30, none, none⟩ 2)
            ⟨none, some 50, none, none⟩ 3)
          ⟨none, some 70, none, none⟩ 4)
        ⟨none, some 90, none, none⟩ 5).error = none →
      (task_wrapper "t"
        (analyze_file_content_async "t" "c" "hello" (Except.ok "reply") (fun n => 2 + n))
        1 9 ⟨create_task [] "t" "file_analysis" [] 0, ⟨[("c", [])], [("c", [])]⟩⟩).2
          = Except.ok v ∧
      ∃ tf, findIn (task_wrapper "t"
        (analyze_file_content_async "t" "c" "hello" (Except.ok "reply") (fun n => 2 + n))
        1 9 ⟨create_task [] "t" "file_analysis" [] 0, ⟨[("c", [])], [("c", [])]⟩⟩).1.tasks "t"
          = some tf ∧
        tf.status = TaskStatus.completed ∧ tf.progress = 100 ∧ tf.result = some v ∧
        tf.error = none ∧ tf.updated_at = 9) ∧
    (∀ e, (Except.ok (AnalyzeResult.mk "c" "reply") : Except String AnalyzeResult)
        = Except.error e →
      (applyUpdate
        (applyUpdate
          (applyUpdate
            (applyUpdate
              (applyUpdate (newTask "t" "file_analysis" [] 0)
                ⟨some TaskStatus.processing, some 10, none, none⟩ 1)
              ⟨some TaskStatus.processing, some 30, none, none⟩ 2)
            ⟨none, some 50, none, none⟩ 3)
          ⟨none, some 70, none, none⟩ 4)
        ⟨none, some 90, none, none⟩ 5).result = none →
      (task_wrapper "t"
        (analyze_file_content_async "t" "c" "hello" (Except.ok "reply") (fun n => 2 + n))
        1 9 ⟨create_task [] "t" "file_analysis" [] 0, ⟨[("c", [])], [("c", [])]⟩⟩).2
          = Except.error e ∧
      ∃ tf, findIn (task_wrapper "t"
        (analyze_file_content_async "t" "c" "hello" (Except.ok "reply") (fun n => 2 + n))
        1 9 ⟨create_task [] "t" "file_analysis" [] 0, ⟨[("c", [])], [("c", [])]⟩⟩).1.tasks "t"
          = some tf ∧
        tf.status = TaskStatus.failed ∧ tf.progress = 0 ∧ tf.error = some e ∧
        tf.result = none ∧ tf.updated_at = 9) :=
  task_wrapper_final_record "t"
    (analyze_file_content_async "t" "c" "hello" (Except.ok "reply") (fun n => 2 + n))
    1 9 ⟨create_task [] "t" "file_analysis" [] 0, ⟨[("c", [])], [("c", [])]⟩⟩
    ((analyze_file_content_async "t" "c" "hello" (Except.ok "reply") (fun n => 2 + n))
      { tasks := update_task (create_task [] "t" "file_analysis" [] 0) "t"
          ⟨some TaskStatus.processing, some 10, none, none⟩ 1,
        tutor := ⟨[("c", [])], [("c", [])]⟩ }).1
    (Except.ok (AnalyzeResult.mk "c" "reply"))
    (applyUpdate
      (applyUpdate
        (applyUpdate
          (applyUpdate
            (applyUpdate (newTask "t" "file_analysis" [] 0)
              ⟨some TaskStatus.processing, some 10, none, none⟩ 1)
            ⟨some TaskStatus.processing, some 30, none, none⟩ 2)
          ⟨none, some 50, none, none⟩ 3)
        ⟨none, some 70, none, none⟩ 4)
      ⟨none, some 90, none, none⟩ 5)
    (by rfl) (by decide)

theorem contentTexts_content_append_done (l : List String) :
    contentTexts (l.map Chunk.content ++ [Chunk.done]) = l := by
  induction l with
  | nil => rfl
  | cons a t ih =>
      simp only [List.map_cons, List.cons_append, contentTexts, List.filterMap_cons] at ih ⊢
      rw [ih]

theorem foldl_append_mk (css : List (List Char)) (l : List Char) :
    (css.map String.mk).foldl (fun r s => r ++ s) (String.mk l) = String.mk (l ++ css.flatten) := by
  induction css generalizing l with
  | nil => simp
  | cons a t ih =>
      simp only [List.map_cons, List.foldl_cons]
      have hmk : String.mk l ++ String.mk a = String.mk (l ++ a) := rfl
      rw [hmk, ih]
      simp

theorem stringJoin_mk (css : List (List Char)) :
    String.join (css.map String.mk) = String.mk css.flatten := by
  have h0 : ("" : String) = String.mk [] := rfl
  have := foldl_append_mk css []
  simpa [String.join, h0] using this

/-- C3: in a `POST /api/chat` stream, on a successful gateway call the emitted
chunks are exactly the non-empty fragments (as `content` chunks, in order)
followed by one `done` chunk, the concatenation of the `content` chunks is the
accumulated reply, and the conversation's last turn afterwards is an assistant
turn carrying exactly that concatenation; on a gateway failure the stream is a
single `error` chunk with no `done` after it. -/
theorem chat_stream_relay (st : TutorState) (cid msg : String) :
    (∀ frags : Fragments,
      (chat_generate st cid msg (Except.ok frags)).2
          = (nonEmptyFragments frags).map Chunk.content ++ [Chunk.done] ∧
      String.join (contentTexts (chat_generate st cid msg (Except.ok frags)).2)
          = String.join (nonEmptyFragments frags) ∧
      ((findIn (chat_generate st cid msg (Except.ok frags)).1.conversations cid).bind
          List.getLast?)
          = some ⟨"assistant",
              String.join (contentTexts (chat_generate st cid msg (Except.ok frags)).2)⟩) ∧
    (∀ e : String,
      (chat_generate st cid msg (Except.error e)).2
          = [Chunk.error ("调用模型失败: " ++ e)]) := by
  constructor
  · intro frags
    refine ⟨?_, ?_, ?_⟩
    · simp [chat_generate, start_conversation]
    · simp [chat_generate, start_conversation, contentTexts_content_append_done]
    · simp [chat_generate, start_conversation, save_conversations,
        contentTexts_content_append_done, List.getLast?_concat]
  · intro e
    simp [chat_generate, start_conversation]

theorem sliceChunks_flatten (l : List Char) : (sliceChunks l).flatten = l := by
  by_cases h : l = []
  · subst h; rw [sliceChunks]; simp
  · have ih := sliceChunks_flatten (l.drop 50)
    rw [sliceChunks]
    simp only [if_neg h, List.flatten_cons, ih, List.take_append_drop]
termination_by l.length
decreasing_by
  simp only [List.length_drop]
  cases l with
  | nil => simp_all
  | cons c rest => simp; omega

theorem sliceChunks_sizes (l : List Char) :
    ∀ c ∈ sliceChunks l, c ≠ [] ∧ c.length ≤ 50 := by
  by_cases h : l = []
  · subst h; rw [sliceChunks]; simp
  · have ih := sliceChunks_sizes (l.drop 50)
    rw [sliceChunks]
    simp only [if_neg h, List.mem_cons]
    intro c hc
    rcases hc with rfl | hc
    · constructor
      · simp [List.take_eq_nil_iff, h]
      · simp [List.length_take]
    · exact ih c hc
termination_by l.length
decreasing_by
  simp only [List.length_drop]
  cases l with
  | nil => simp_all
  | cons c rest => simp; omega

theorem sliceChunks_dropLast_full (l : List Char) :
    ∀ c ∈ (sliceChunks l).dropLast, c.length = 50 := by
  by_cases h : l = []
  · subst h; rw [sliceChunks]; simp
  · have ih := sliceChunks_dropLast_full (l.drop 50)
    rw [sliceChunks]
    simp only [if_neg h]
    by_cases hd : l.drop 50 = []
    · rw [hd, sliceChunks]
      simp
    · have hslice : sliceChunks (l.drop 50) ≠ [] := by
        rw [sliceChunks]
        simp [hd]
      rw [List.dropLast_cons_of_ne_nil hslice]
      intro c hc
      rcases List.mem_cons.mp hc with rfl | hc2
      · have hlen : 50 < l.length := by
          have := List.length_drop 50 l
          by_contra hle
          push_neg at hle
          have : l.drop 50 = [] := List.drop_eq_nil_of_le (by omega)
          exact hd this
        simp [List.length_take]
        omega
      · exact ih c hc2
termination_by l.length
decreasing_by
  simp only [List.length_drop]
  cases l with
  | nil => simp_all
  | cons c rest => simp; omega

/-- C4: when the conversation exists, is non-empty, and has an assistant turn,
the replay stream emits exactly the consecutive 50-character slices of the
most recent assistant turn's text (all slices non-empty and of length 50
except possibly a shorter last one), in order, followed by exactly one `done`
chunk, and the concatenation of the `content` chunks reproduces the text. -/
theorem replay_stream_segments (st : TutorState) (cid : String)
    (msgs : List Turn) (t : Turn)
    (h1 : findIn st.conversations cid = some msgs)
    (h2 : msgs ≠ [])
    (h3 : lastAssistantMessage msgs = some t) :
    stream_analysis_generate st cid
        = (sliceChunks t.content.toList).map (fun c => Chunk.content (String.mk c))
            ++ [Chunk.done] ∧
    String.join (contentTexts (stream_analysis_generate st cid)) = t.content ∧
    (∀ c ∈ sliceChunks t.content.toList, c ≠ [] ∧ c.length ≤ 50) ∧
    (∀ c ∈ (sliceChunks t.content.toList).dropLast, c.length = 50) := by
  have hgen : stream_analysis_generate st cid
      = (sliceChunks t.content.toList).map (fun c => Chunk.content (String.mk c))
          ++ [Chunk.done] := by
    simp [stream_analysis_generate, h1, h2, h3]
  refine ⟨hgen, ?_, sliceChunks_sizes _, sliceChunks_dropLast_full _⟩
  rw [hgen]
  have hmapmap : (sliceChunks t.content.toList).map (fun c => Chunk.content (String.mk c))
      = ((sliceChunks t.content.toList).map String.mk).map Chunk.content := by
    rw [List.map_map]
    rfl
  rw [hmapmap, contentTexts_content_append_done, stringJoin_mk, sliceChunks_flatten]
  rfl

/-- Witness for C4 on a two-turn conversation whose assistant text is longer
than one 50-character slice. -/
theorem replay_stream_segments_witness :
    stream_analysis_generate
        ⟨[("c", [⟨"user", "hi"⟩,
            ⟨"assistant", String.mk (List.replicate 70 'x')⟩])], []⟩ "c"
        = (sliceChunks (String.mk (List.replicate 70 'x')).toList).map
            (fun c => Chunk.content (String.mk c)) ++ [Chunk.done] ∧
    String.join (contentTexts (stream_analysis_generate
        ⟨[("c", [⟨"user", "hi"⟩,
            ⟨"assistant", String.mk (List.replicate 70 'x')⟩])], []⟩ "c"))
        = String.mk (List.replicate 70 'x') ∧
    (∀ c ∈ sliceChunks (String.mk (List.replicate 70 'x')).toList,
        c ≠ [] ∧ c.length ≤ 50) ∧
    (∀ c ∈ (sliceChunks (String.mk (List.replicate 70 'x')).toList).dropLast,
        c.length = 50) :=
  replay_stream_segments
    ⟨[("c", [⟨"user", "hi"⟩, ⟨"assistant", String.mk (List.replicate 70 'x')⟩])], []⟩
    "c" [⟨"user", "hi"⟩, ⟨"assistant", String.mk (List.replicate 70 'x')⟩]
    ⟨"assistant", String.mk (List.replicate 70 'x')⟩
    (by decide) (by decide) (by decide)

/-- C5: the replay stream's failure cases — absent conversation, empty
transcript, transcript without an assistant turn — each yield exactly one
`error` chunk (no `content`, no `done`), and the three messages are pairwise
distinct, so the message identifies the condition. -/
theorem replay_stream_error_cases (st : TutorState) (cid : String) :
    (findIn st.conversations cid = none →
      stream_analysis_generate st cid = [Chunk.error "对话不存在"]) ∧
    (findIn st.conversations cid = some [] →
      stream_analysis_generate st cid = [Chunk.error "暂无分析结果"]) ∧
    (∀ msgs, findIn st.conversations cid = some msgs → msgs ≠ [] →
      lastAssistantMessage msgs = none →
      stream_analysis_generate st cid = [Chunk.error "暂无AI回复"]) ∧
    ("对话不存在" ≠ "暂无分析结果" ∧ "对话不存在" ≠ "暂无AI回复" ∧
      "暂无分析结果" ≠ "暂无AI回复") := by
  refine ⟨?_, ?_, ?_, by decide⟩
  · intro h
    simp [stream_analysis_generate, h]
  · intro h
    simp [stream_analysis_generate, h]
  · intro msgs h hne hna
    simp [stream_analysis_generate, h, hne, hna]

/-- Witness for C5: all three failure conditions at concrete stores. -/
theorem replay_stream_error_cases_witness :
    stream_analysis_generate ⟨[], []⟩ "c" = [Chunk.error "对话不存在"] ∧
    stream_analysis_generate ⟨[("c", [])], []⟩ "c" = [Chunk.error "暂无分析结果"] ∧
    stream_analysis_generate ⟨[("c", [⟨"user", "hi"⟩])], []⟩ "c"
        = [Chunk.error "暂无AI回复"] :=
  ⟨(replay_stream_error_cases ⟨[], []⟩ "c").1 (by decide),
   (replay_stream_error_cases ⟨[("c", [])], []⟩ "c").2.1 (by decide),
   (replay_stream_error_cases ⟨[("c", [⟨"user", "hi"⟩])], []⟩ "c").2.2.1
     [⟨"user", "hi"⟩] (by decide) (by decide) (by decide)⟩

/-- C6 counterexample: creating a task under an id that already exists does
not fail and does not leave the existing record unchanged — the record that
had been advanced to Processing/42 is replaced by a fresh Pending record. -/
theorem create_task_duplicate_cex :
    findIn (create_task (update_task (create_task [] "t1" "file_analysis" [] 0) "t1"
          ⟨some TaskStatus.processing, some 42, none, none⟩ 1) "t1" "file_analysis" [] 2) "t1"
      ≠ findIn (update_task (create_task [] "t1" "file_analysis" [] 0) "t1"
          ⟨some TaskStatus.processing, some 42, none, none⟩ 1) "t1" ∧
    findIn (create_task (update_task (create_task [] "t1" "file_analysis" [] 0) "t1"
          ⟨some TaskStatus.processing, some 42, none, none⟩ 1) "t1" "file_analysis" [] 2) "t1"
      = some (newTask "t1" "file_analysis" [] 2) := by
  exact ⟨by decide, by decide⟩

/-- C6 amended: `create_task` never fails on a duplicate id; it always
installs a fresh Pending record under the id, silently replacing whatever
record was there. -/
theorem create_task_overwrites (m : TaskMap) (task_id task_type : String)
    (meta : List (String × String)) (now : Nat) :
    findIn (create_task m task_id task_type meta now) task_id
      = some (newTask task_id task_type meta now) := by
  simp [create_task]

/-- C7 counterexample: after the user-turn append performed by
`start_conversation`, the persisted mapping differs from the in-memory map —
this append path never calls `save_conversations`. -/
theorem user_append_not_persisted_cex :
    (start_conversation ⟨[], []⟩ "c" "hi" (Except.ok [])).1.saved
      ≠ (start_conversation ⟨[], []⟩ "c" "hi" (Except.ok [])).1.conversations := by
  decide

/-- C7 amended: conversation creation and assistant-turn appends rewrite the
durable file immediately (persisted map = in-memory map afterwards), but the
user-turn append in `start_conversation` mutates only the in-memory map and
leaves the persisted mapping untouched. -/
theorem conversation_persistence (st : TutorState) (cid text : String)
    (g : Except String Fragments) (turns : List Turn)
    (hex : findIn st.conversations cid = some turns) :
    (add_assistant_message st cid text).saved
        = (add_assistant_message st cid text).conversations ∧
    (create_conversation st cid).saved = (create_conversation st cid).conversations ∧
    (start_conversation st cid text g).1.saved = st.saved ∧
    findIn (start_conversation st cid text g).1.conversations cid
        = some (turns ++ [⟨"user", text⟩]) := by
  refine ⟨?_, ?_, ?_, ?_⟩
  · simp [add_assistant_message, hex, save_conversations]
  · simp [create_conversation, save_conversations]
  · cases g <;> simp [start_conversation, hex]
  · cases g <;> simp [start_conversation, hex]

/-- Witness for C7's amended statement on a concrete store. -/
theorem conversation_persistence_witness :
    (add_assistant_message ⟨[("c", [])], []⟩ "c" "yo").saved
        = (add_assistant_message ⟨[("c", [])], []⟩ "c" "yo").conversations ∧
    (create_conversation ⟨[("c", [])], []⟩ "c").saved
        = (create_conversation ⟨[("c", [])], []⟩ "c").conversations ∧
    (start_conversation ⟨[("c", [])], []⟩ "c" "yo" (Except.ok [])).1.saved
        = (⟨[("c", [])], []⟩ : TutorState).saved ∧
    findIn (start_conversation ⟨[("c", [])], []⟩ "c" "yo" (Except.ok [])).1.conversations "c"
        = some ([] ++ [⟨"user", "yo"⟩]) :=
  conversation_persistence ⟨[("c", [])], []⟩ "c" "yo" (Except.ok []) [] (by decide)

/-- C8 counterexample: `get_task` hands back the live record object, not an
immutable copy — after `update_task` mutates the job, reading through the
previously returned reference shows the new contents. -/
theorem get_task_live_record_cex :
    get_task (create_task_ref ⟨[], [], 0⟩ "t1" "file_analysis" [] 0) "t1" = some 0 ∧
    (get_task (create_task_ref ⟨[], [], 0⟩ "t1" "file_analysis" [] 0) "t1").bind
        (deref (update_task_ref (create_task_ref ⟨[], [], 0⟩ "t1" "file_analysis" [] 0) "t1"
          ⟨some TaskStatus.processing, some 30, none, none⟩ 1))
      ≠ (get_task (create_task_ref ⟨[], [], 0⟩ "t1" "file_analysis" [] 0) "t1").bind
          (deref (create_task_ref ⟨[], [], 0⟩ "t1" "file_analysis" [] 0)) := by
  exact ⟨by decide, by decide⟩

/-- C8 amended: `get_task` returns the live mutable record (the stored
reference), so any later `update_task` on that id is visible through the
value previously returned to the caller. -/
theorem get_task_live_record (h : TaskHeap) (task_id : String) (a : Nat)
    (u : TaskUpdate) (now : Nat) (t : Task)
    (hget : get_task h task_id = some a) (ht : deref h a = some t) :
    deref (update_task_ref h task_id u now) a = some (applyUpdate t u now) := by
  unfold get_task at hget
  unfold deref at ht
  simp [update_task_ref, hget, ht, deref]

/-- Witness for C8's amended statement on a concrete heap. -/
theorem get_task_live_record_witness :
    deref (update_task_ref (create_task_ref ⟨[], [], 0⟩ "t1" "file_analysis" [] 0) "t1"
        ⟨some TaskStatus.processing, some 30, none, none⟩ 1) 0
      = some (applyUpdate (newTask "t1" "file_analysis" [] 0)
          ⟨some TaskStatus.processing, some 30, none, none⟩ 1) :=
  get_task_live_record (create_task_ref ⟨[], [], 0⟩ "t1" "file_analysis" [] 0) "t1" 0
    ⟨some TaskStatus.processing, some 30, none, none⟩ 1
    (newTask "t1" "file_analysis" [] 0) (by decide) (by decide)

/-- C9 counterexample: for a 501-character text, `content_preview` is not the
first 500 characters — the code appends `'...'`, so the preview has 503
characters. -/
theorem content_preview_cex :
    content_preview (List.replicate 501 'a') ≠ (List.replicate 501 'a').take 500 := by
  intro h
  have h1 : (content_preview (List.replicate 501 'a')).length = 503 := by
    rw [content_preview, if_pos]
    · simp only [List.length_append, List.length_take, List.length_replicate,
        List.length_cons, List.length_nil]
      omega
    · simp only [List.length_replicate]
      omega
  have h2 : ((List.replicate 501 'a').take 500).length = 500 := by
    simp only [List.length_take, List.length_replicate]
    omega
  rw [h, h2] at h1
  omega

/-- C9 amended: the preview equals the whole text when it has at most 500
characters, and otherwise equals the first 500 characters with `'...'`
appended (in particular it still begins with the first 500 characters). -/
theorem content_preview_truncation (l : List Char) :
    (l.length ≤ 500 → content_preview l = l) ∧
    (500 < l.length →
      content_preview l = l.take 500 ++ ['.', '.', '.'] ∧
      (content_preview l).take 500 = l.take 500 ∧
      (content_preview l).length = 503) := by
  constructor
  · intro h
    rw [content_preview, if_neg]
    omega
  · intro h
    have hif : content_preview l = l.take 500 ++ ['.', '.', '.'] := by
      rw [content_preview, if_pos h]
    refine ⟨hif, ?_, ?_⟩
    · rw [hif, List.take_append_of_le_length, List.take_take]
      · simp
      · simp [List.length_take]
        omega
    · rw [hif]
      simp [List.length_take]
      omega

/-- Witness for C9's amended statement at a short and a long text. -/
theorem content_preview_truncation_witness :
    content_preview ['h', 'i'] = ['h', 'i'] ∧
    content_preview (List.replicate 501 'a')
        = (List.replicate 501 'a').take 500 ++ ['.', '.', '.'] := by
  constructor
  · exact (content_preview_truncation ['h', 'i']).1 (by decide)
  · exact ((content_preview_truncation (List.replicate 501 'a')).2
      (by simp only [List.length_replicate]; omega)).1

/-- C10: a `POST /api/chat` request with a non-empty message and a
conversation id absent from the store is not rejected (there is no 404 path);
`start_conversation` silently creates an empty transcript under that id and
appends the user turn before the model is called, so the response is a
stream and the stored transcript starts with that user turn. -/
theorem chat_unknown_conversation_created (st : TutorState) (c m : String)
    (g : Except String Fragments)
    (hc : c ≠ "") (hm : m ≠ "") (habs : findIn st.conversations c = none) :
    ∃ st1 chunks, chat st (some c) (some m) g = ChatResponse.eventStream st1 chunks ∧
      ∃ rest, findIn st1.conversations c = some (⟨"user", m⟩ :: rest) := by
  have hcm : ¬(c = "" ∨ m = "") := by
    push_neg
    exact ⟨hc, hm⟩
  simp only [chat, if_neg hcm]
  refine ⟨(chat_generate st c m g).1, (chat_generate st c m g).2, rfl, ?_⟩
  cases g with
  | ok frags =>
      refine ⟨[⟨"assistant", String.join (nonEmptyFragments frags)⟩], ?_⟩
      simp [chat_generate, start_conversation, habs, save_conversations]
  | error e =>
      refine ⟨[], ?_⟩
      simp [chat_generate, start_conversation, habs]

/-- Witness for C10 on an empty store. -/
theorem chat_unknown_conversation_created_witness :
    ∃ st1 chunks, chat ⟨[], []⟩ (some "c") (some "hi") (Except.ok [some "ok"])
        = ChatResponse.eventStream st1 chunks ∧
      ∃ rest, findIn st1.conversations "c" = some (⟨"user", "hi"⟩ :: rest) :=
  chat_unknown_conversation_created ⟨[], []⟩ "c" "hi" (Except.ok [some "ok"])
    (by decide) (by decide) (by decide)

end BackendApi
